import Mathlib

/-!
Verification of `zephyr/stream/stream.py`: the `Stream` class, which relays
video frames from a caller to an ffmpeg encoder subprocess through a
multiprocessing pipe, with a tenacity `@retry` supervisor around the worker
entry point `Stream._update`.

The embedding models numpy arrays as shape/itemsize/flat-data records, the
channel as a FIFO list of received items (a received item may be a value or a
receive failure), the ffmpeg subprocess stdin as a log of written byte blocks,
and one `_update` attempt as a structurally recursive function over the
channel contents.  The tenacity `retry` decorator (used with no arguments:
retry forever, no added wait) is modelled by a fuel-indexed supervisor whose
fuel exhaustion is a distinct outcome, never a policy decision to give up.
-/

namespace Zephyr

/-- Model of a numpy ndarray: shape, dtype itemsize in bytes, and the flat
row-major element data (element values, as numpy compares values, not raw
bytes, in `np.array_equal`). -/
structure NArr where
  shape : List Nat
  itemsize : Nat
  data : List Nat
  deriving Repr, DecidableEq

/-- Little-endian byte serialization of one element, as `ndarray.tobytes`
produces for an unsigned value of the given itemsize. -/
def elemBytes (itemsize v : Nat) : List Nat :=
  (List.range itemsize).map (fun i => v / 256 ^ i % 256)

/-- Model of `ndarray.tobytes()`: each element serialized to `itemsize`
bytes, concatenated in row-major order. -/
def NArr.tobytes (a : NArr) : List Nat :=
  a.data.flatMap (elemBytes a.itemsize)

/-- `Stream.CLOSE_REQUEST = np.array([0])`: a one-element array of the numpy
default integer dtype (int64 on the supported 64-bit platforms, itemsize 8). -/
def CLOSE_REQUEST : NArr := ⟨[1], 8, [0]⟩

/-- Model of `np.array_equal(a, b)`: true iff the shapes are equal and the
element values are equal position-wise (dtype is irrelevant). -/
def array_equal (a b : NArr) : Bool :=
  a.shape == b.shape && a.data == b.data

/-- Model of `cv2.resize(frame, (w, h))`: defined on 2-D and 3-D arrays,
producing shape `[h, w]` resp. `[h, w, c]` with the same dtype, sampling
source pixels nearest-neighbour; on any other rank cv2 raises, modelled as
`none`. -/
def resize (a : NArr) (res : Nat × Nat) : Option NArr :=
  match a.shape with
  | [h0, w0] =>
      some ⟨[res.2, res.1], a.itemsize,
        (List.range (res.2 * res.1)).map (fun i =>
          let y := i / res.1
          let x := i % res.1
          a.data.getD (y * h0 / res.2 * w0 + x * w0 / res.1) 0)⟩
  | [h0, w0, c] =>
      some ⟨[res.2, res.1, c], a.itemsize,
        (List.range (res.2 * res.1 * c)).map (fun i =>
          let y := i / (res.1 * c)
          let x := i / c % res.1
          let ch := i % c
          a.data.getD ((y * h0 / res.2 * w0 + x * w0 / res.1) * c + ch) 0)⟩
  | _ => none

/-- One item obtained by `child_connection.recv()` in the worker loop: either
a received value (a frame, the sentinel, or `None`), or a raised receive
error (e.g. `EOFError` when the peer vanished). -/
inductive ChanItem where
  | item : Option NArr → ChanItem
  | recvErr : ChanItem
  deriving Repr, DecidableEq

/-- Observable actions of the worker: subprocess launch (`sp.Popen`), a
successful `pipe.stdin.write` of a byte block, `logging.error` with the
stream URL, `pipe.terminate()`, `time.sleep` of a duration, and the closing
of the subprocess stdin that the OS performs when the worker process exits
normally (EOF signal to ffmpeg). -/
inductive Ev where
  | launch : Ev
  | write : List Nat → Ev
  | logError : String → Ev
  | terminate : Ev
  | sleep : Nat → Ev
  | closeStdin : Ev
  deriving Repr, DecidableEq

/-- The parameters of `Stream` relevant to the worker, plus `stdinSome`,
which models whether `sp.Popen(..., stdin=sp.PIPE)` yielded a non-`None`
stdin handle (the code guards `if pipe.stdin is not None`). -/
structure Config where
  url : String
  resolution : Nat × Nat
  wait : Nat
  stdinSome : Bool
  deriving Repr, DecidableEq

/-- How one invocation of the `while run` loop of `Stream._update` ended:
`run = False` reached (`exited`), an exception propagated (`raised`), or the
channel was exhausted and `recv` blocks forever (`blocked`). -/
inductive Outcome where
  | exited : Outcome
  | raised : Outcome
  | blocked : Outcome
  deriving Repr, DecidableEq

/-- Result of one run of the `while run` loop: the events performed, how the
loop ended, the channel items not yet received, and the next stdin-write
index (used to consult the write-failure oracle). -/
structure LoopRes where
  events : List Ev
  outcome : Outcome
  rest : List ChanItem
  wIdx : Nat
  deriving Repr, DecidableEq

/-- The `while run` loop of `Stream._update`, recursing over the channel
contents.  `writeOk k` tells whether the k-th `pipe.stdin.write` call of the
whole execution succeeds.  Faithful to the source order: `frame = recv()`;
`last_frame = frame`; `if frame is None: frame = last_frame`; the guarded
write (where `frame.tobytes()` on `None` raises `AttributeError`, caught by
the same `except` as a write failure: log, terminate, sleep, re-raise); then
`if np.array_equal(frame, CLOSE_REQUEST): run = False`.  Note
`np.array_equal(None, CLOSE_REQUEST)` is `False`. -/
def updateLoop (cfg : Config) (writeOk : Nat → Bool) :
    List ChanItem → Option NArr → Nat → LoopRes
  | [], _, w => ⟨[], .blocked, [], w⟩
  | .recvErr :: rest, _, w => ⟨[], .raised, rest, w⟩
  | .item f :: rest, _, w =>
      let last_frame := f
      let frame := if f.isNone then last_frame else f
      if cfg.stdinSome then
        match frame with
        | none =>
            ⟨[.logError cfg.url, .terminate, .sleep cfg.wait], .raised, rest, w⟩
        | some a =>
            if writeOk w then
              if array_equal a CLOSE_REQUEST then
                ⟨[.write a.tobytes], .exited, rest, w + 1⟩
              else
                let r := updateLoop cfg writeOk rest last_frame (w + 1)
                ⟨.write a.tobytes :: r.events, r.outcome, r.rest, r.wIdx⟩
            else
              ⟨[.logError cfg.url, .terminate, .sleep cfg.wait], .raised, rest, w + 1⟩
      else
        match frame with
        | none => updateLoop cfg writeOk rest last_frame w
        | some a =>
            if array_equal a CLOSE_REQUEST then ⟨[], .exited, rest, w⟩
            else updateLoop cfg writeOk rest last_frame w

/-- One invocation of the worker entry point `Stream._update`: launch the
subprocess (`sp.Popen`), then run the loop with `run = True` and `last_frame`
not yet assigned. -/
def updateAttempt (cfg : Config) (writeOk : Nat → Bool) (q : List ChanItem)
    (w : Nat) : LoopRes :=
  let r := updateLoop cfg writeOk q none w
  ⟨.launch :: r.events, r.outcome, r.rest, r.wIdx⟩

/-- How a fuel-indexed run of the retried worker ended: normal exit of the
loop (`exited`), worker blocked forever on `recv` (`blocked`), or the model
ran out of fuel while the retry policy still demanded another attempt
(`retryPending`) — the tenacity policy itself (bare `@retry`) never stops
retrying and never adds a delay of its own. -/
inductive FinalOutcome where
  | exited : FinalOutcome
  | blocked : FinalOutcome
  | retryPending : FinalOutcome
  deriving Repr, DecidableEq

/-- Result of the supervised (retried) worker execution: the concatenated
events of all attempts, the final outcome, the channel items never received,
the next write index, and the number of attempts performed. -/
structure RunRes where
  events : List Ev
  outcome : FinalOutcome
  rest : List ChanItem
  wIdx : Nat
  attempts : Nat
  deriving Repr, DecidableEq

/-- The tenacity `@retry` supervisor around `Stream._update`, with no
arguments: every raised exception triggers an immediate re-invocation of the
entry point, with no retry ceiling and no supervisor-added delay.  `fuel`
bounds only the model's recursion; exhausting it yields `retryPending`
(another attempt is still due).  When an attempt exits normally the worker
process terminates and the OS closes its file descriptors, delivering EOF on
the subprocess stdin, modelled by the trailing `closeStdin` event. -/
def retryRun (cfg : Config) (writeOk : Nat → Bool) :
    Nat → List ChanItem → Nat → RunRes
  | 0, q, w => ⟨[], .retryPending, q, w, 0⟩
  | fuel + 1, q, w =>
      let a := updateAttempt cfg writeOk q w
      match a.outcome with
      | .exited => ⟨a.events ++ [.closeStdin], .exited, a.rest, a.wIdx, 1⟩
      | .blocked => ⟨a.events, .blocked, a.rest, a.wIdx, 1⟩
      | .raised =>
          let r := retryRun cfg writeOk fuel a.rest a.wIdx
          ⟨a.events ++ r.events, r.outcome, r.rest, r.wIdx, r.attempts + 1⟩

/-- Errors a call to `Stream.send` can raise: `channelClosed` models the
`OSError` of `multiprocessing.Connection.send` on a closed handle,
`resizeError` a `cv2.error` from `cv2.resize` on a malformed frame. -/
inductive SendErr where
  | channelClosed : SendErr
  | resizeError : SendErr
  deriving Repr, DecidableEq

/-- The handle's write end of the pipe (`self.parent_connection`): the queue
of enqueued items and whether `close()` has been called on it. -/
structure Connection where
  queue : List ChanItem
  closed : Bool
  deriving Repr, DecidableEq

/-- Model of `multiprocessing.Connection.send`: raises on a closed handle,
otherwise appends the item to the FIFO. -/
def Connection.send (c : Connection) (x : ChanItem) : Except SendErr Connection :=
  if c.closed then .error .channelClosed
  else .ok { c with queue := c.queue ++ [x] }

/-- Model of `Stream.send(frame)`: `frame = cv2.resize(frame, resolution)`
(whose failure propagates to the caller), then
`self.parent_connection.send(frame)`. -/
def Stream.send (cfg : Config) (c : Connection) (frame : NArr) :
    Except SendErr Connection :=
  match resize frame cfg.resolution with
  | none => .error .resizeError
  | some f => c.send (.item (some f))

/-- Model of how a call to `Stream.end` finishes: it returns (the sentinel
was enqueued and `process.join()` came back after the worker terminated), or
it blocks forever in `join` because the worker never terminates, or the
enqueue itself raised. -/
inductive EndResult where
  | returned : Connection → RunRes → EndResult
  | blockedForever : RunRes → EndResult
  | sendError : SendErr → EndResult
  deriving Repr, DecidableEq

/-- Model of `Stream.end()`:
`self.parent_connection.send(Stream.CLOSE_REQUEST)` (no resize, and the
connection is never closed), then `self.process.join()`, which returns
exactly when the supervised worker run over the whole channel contents
terminates. -/
def Stream.endCall (cfg : Config) (writeOk : Nat → Bool) (fuel : Nat)
    (c : Connection) : EndResult :=
  match c.send (.item (some CLOSE_REQUEST)) with
  | .error e => .sendError e
  | .ok c1 =>
      let run := retryRun cfg writeOk fuel c1.queue 0
      match run.outcome with
      | .exited => .returned { queue := run.rest, closed := c1.closed } run
      | _ => .blockedForever run

/-- Number of encoder subprocess instances alive after one event: `launch`
creates one, `terminate` kills the current one, `closeStdin` (EOF at worker
exit) ends the current one. -/
def aliveStep (n : Nat) : Ev → Nat
  | .launch => n + 1
  | .terminate => n - 1
  | .closeStdin => n - 1
  | _ => n

/-- Number of subprocess instances alive after a sequence of events, starting
from `n` alive. -/
def aliveAfter (n : Nat) (evs : List Ev) : Nat :=
  evs.foldl aliveStep n

/-- Peak number of simultaneously alive subprocess instances over a sequence
of events, starting from `n` alive. -/
def maxAlive (n : Nat) : List Ev → Nat
  | [] => n
  | e :: es => max n (maxAlive (aliveStep n e) es)

/-- The byte blocks successfully written to the subprocess stdin, in order,
over a sequence of events. -/
def writesOf : List Ev → List (List Nat)
  | [] => []
  | .write bs :: es => bs :: writesOf es
  | _ :: es => writesOf es

/-- A small concrete configuration used by concrete runs: resolution (2, 2),
default `wait = 5`, stdin handle present. -/
def smallCfg : Config := ⟨"rtsp://localhost:8554/cam", (2, 2), 5, true⟩

/-- A small concrete caller-side frame: a 1x1 BGR raster with pixel
`(v, v+1, v+2)`. -/
def srcFrame (v : Nat) : NArr := ⟨[1, 1, 3], 1, [v, v + 1, v + 2]⟩

/-- The frame `srcFrame v` as it arrives at the worker: resized by
`Stream.send` to the 2x2 resolution of `smallCfg`. -/
def sframe (v : Nat) : NArr := (resize (srcFrame v) (2, 2)).getD ⟨[], 0, []⟩

/-- Write-failure oracle for the recovery scenarios: the very first
`pipe.stdin.write` of the execution raises, every later one succeeds. -/
def failFirstWrite : Nat → Bool := fun w => decide (0 < w)

/-- The configuration of the spec §8 scenario: `resolution=(640,480)`,
default `wait`. -/
def scenarioCfg : Config := ⟨"rtsp://localhost:8554/test", (640, 480), 5, true⟩

/-- The k-th caller-side frame of the §8 scenario: a 2x2 BGR raster whose
twelve samples all hold `k`, so the ten frames are pairwise distinct. -/
def testFrame (k : Nat) : NArr := ⟨[2, 2, 3], 1, List.replicate 12 k⟩

/-- The k-th scenario frame as the worker receives it: resized by
`Stream.send` to 640x480. -/
def rframe (k : Nat) : NArr := (resize (testFrame k) (640, 480)).getD ⟨[], 0, []⟩

/-- The channel contents after the ten `Stream.send` calls of the scenario. -/
def scenarioQueue : List ChanItem :=
  (List.range 10).map fun k => .item (some (rframe k))

/-- The ten `Stream.send` calls of the §8 scenario, starting from the fresh
connection produced by `Stream.__init__`. -/
def scenarioSends : Except SendErr Connection :=
  (List.range 10).foldlM (fun c k => Stream.send scenarioCfg c (testFrame k)) ⟨[], false⟩

/-- The `Stream.end` call of the §8 scenario, after the ten sends, with every
subprocess write succeeding. -/
def scenarioEnd : EndResult :=
  match scenarioSends with
  | .ok c => Stream.endCall scenarioCfg (fun _ => true) 1 c
  | .error e => .sendError e

/-- The supervised worker execution of the §8 scenario: the ten resized
frames followed by the close sentinel, every write succeeding. -/
def scenarioRun : RunRes :=
  retryRun scenarioCfg (fun _ => true) 1
    (scenarioQueue ++ [.item (some CLOSE_REQUEST)]) 0

/-- A minimal complete run: a stream that is ended right away, with every
write succeeding. -/
def smallRun : RunRes :=
  retryRun smallCfg (fun _ => true) 1 [.item (some CLOSE_REQUEST)] 0

/-! Unfolding lemmas for one iteration of the worker loop. -/

/-- A failing stdin write of a received frame runs the `except` branch: log
with the URL, terminate, sleep `wait`, re-raise. -/
lemma updateLoop_write_fail (cfg : Config) (wo : Nat → Bool) (a : NArr)
    (rest : List ChanItem) (lastF : Option NArr) (w : Nat)
    (hs : cfg.stdinSome = true) (hw : wo w = false) :
    updateLoop cfg wo (.item (some a) :: rest) lastF w =
      ⟨[.logError cfg.url, .terminate, .sleep cfg.wait], .raised, rest, w + 1⟩ := by
  simp [updateLoop, hs, hw]

/-- A successful write of a non-sentinel frame continues the loop. -/
lemma updateLoop_write_ok (cfg : Config) (wo : Nat → Bool) (a : NArr)
    (rest : List ChanItem) (lastF : Option NArr) (w : Nat)
    (hs : cfg.stdinSome = true) (hw : wo w = true)
    (ha : array_equal a CLOSE_REQUEST = false) :
    updateLoop cfg wo (.item (some a) :: rest) lastF w =
      ⟨.write a.tobytes :: (updateLoop cfg wo rest (some a) (w + 1)).events,
        (updateLoop cfg wo rest (some a) (w + 1)).outcome,
        (updateLoop cfg wo rest (some a) (w + 1)).rest,
        (updateLoop cfg wo rest (some a) (w + 1)).wIdx⟩ := by
  simp [updateLoop, hs, hw, ha]

/-- A successful write of the sentinel reaches the `array_equal` test, which
sets `run = False`: the loop exits, leaving the rest of the channel unread. -/
lemma updateLoop_sentinel_ok (cfg : Config) (wo : Nat → Bool)
    (rest : List ChanItem) (lastF : Option NArr) (w : Nat)
    (hs : cfg.stdinSome = true) (hw : wo w = true) :
    updateLoop cfg wo (.item (some CLOSE_REQUEST) :: rest) lastF w =
      ⟨[.write CLOSE_REQUEST.tobytes], .exited, rest, w + 1⟩ := by
  simp [updateLoop, hs, hw, array_equal, CLOSE_REQUEST]

/-- A clean streaming run: non-sentinel frames followed by the sentinel, all
writes from index `w` on succeeding, writes each frame in order, then the
sentinel bytes, and exits, leaving any later channel items unread. -/
lemma updateLoop_clean (cfg : Config) (wo : Nat → Bool) (fs : List NArr)
    (extra : List ChanItem) (lastF : Option NArr) (w : Nat)
    (hs : cfg.stdinSome = true)
    (hfs : ∀ a ∈ fs, array_equal a CLOSE_REQUEST = false)
    (hw : ∀ i, w ≤ i → wo i = true) :
    updateLoop cfg wo
        ((fs.map fun a => .item (some a)) ++ .item (some CLOSE_REQUEST) :: extra) lastF w =
      ⟨(fs.map fun a => .write a.tobytes) ++ [.write CLOSE_REQUEST.tobytes],
        .exited, extra, w + fs.length + 1⟩ := by
  induction fs generalizing lastF w with
  | nil =>
      simpa using updateLoop_sentinel_ok cfg wo extra lastF w hs (hw w le_rfl)
  | cons a as ih =>
      have ha : array_equal a CLOSE_REQUEST = false := hfs a (by simp)
      have has : ∀ b ∈ as, array_equal b CLOSE_REQUEST = false :=
        fun b hb => hfs b (by simp [hb])
      have hw1 : ∀ i, w + 1 ≤ i → wo i = true := fun i hi => hw i (by omega)
      rw [List.map_cons, List.cons_append,
        updateLoop_write_ok cfg wo a _ lastF w hs (hw w le_rfl) ha,
        ih (some a) (w + 1) has hw1]
      simp
      omega

/-- A received `None` with a live stdin handle: the substitution
`frame = last_frame` leaves `frame` as the just-received `None` (because
`last_frame = frame` ran first), so `frame.tobytes()` raises inside the
`try`, and the `except` branch runs. -/
lemma updateLoop_none_stdin (cfg : Config) (wo : Nat → Bool)
    (rest : List ChanItem) (lastF : Option NArr) (w : Nat)
    (hs : cfg.stdinSome = true) :
    updateLoop cfg wo (.item none :: rest) lastF w =
      ⟨[.logError cfg.url, .terminate, .sleep cfg.wait], .raised, rest, w⟩ := by
  simp [updateLoop, hs]

/-- With no stdin handle, a received `None` skips the write, fails the
sentinel test (`np.array_equal(None, ...)` is false) and loops. -/
lemma updateLoop_none_nostdin (cfg : Config) (wo : Nat → Bool)
    (rest : List ChanItem) (lastF : Option NArr) (w : Nat)
    (hs : cfg.stdinSome = false) :
    updateLoop cfg wo (.item none :: rest) lastF w =
      updateLoop cfg wo rest none w := by
  simp [updateLoop, hs]

/-- With no stdin handle, a received non-sentinel value loops directly. -/
lemma updateLoop_nostdin_cont (cfg : Config) (wo : Nat → Bool) (a : NArr)
    (rest : List ChanItem) (lastF : Option NArr) (w : Nat)
    (hs : cfg.stdinSome = false) (ha : array_equal a CLOSE_REQUEST = false) :
    updateLoop cfg wo (.item (some a) :: rest) lastF w =
      updateLoop cfg wo rest (some a) w := by
  simp [updateLoop, hs, ha]

/-- With no stdin handle, a received sentinel-equal value exits at once. -/
lemma updateLoop_nostdin_exit (cfg : Config) (wo : Nat → Bool) (a : NArr)
    (rest : List ChanItem) (lastF : Option NArr) (w : Nat)
    (hs : cfg.stdinSome = false) (ha : array_equal a CLOSE_REQUEST = true) :
    updateLoop cfg wo (.item (some a) :: rest) lastF w =
      ⟨[], .exited, rest, w⟩ := by
  simp [updateLoop, hs, ha]

/-- A successful write of any sentinel-equal value exits the loop. -/
lemma updateLoop_sentinelval_ok (cfg : Config) (wo : Nat → Bool) (a : NArr)
    (rest : List ChanItem) (lastF : Option NArr) (w : Nat)
    (hs : cfg.stdinSome = true) (hw : wo w = true)
    (ha : array_equal a CLOSE_REQUEST = true) :
    updateLoop cfg wo (.item (some a) :: rest) lastF w =
      ⟨[.write a.tobytes], .exited, rest, w + 1⟩ := by
  simp [updateLoop, hs, hw, ha]

/-- Byte length of a serialized array: elements times itemsize. -/
lemma tobytes_length (a : NArr) : a.tobytes.length = a.data.length * a.itemsize := by
  have h : ∀ d : List Nat,
      (d.flatMap (elemBytes a.itemsize)).length = d.length * a.itemsize := by
    intro d
    induction d with
    | nil => simp
    | cons x xs ih => simp [elemBytes, ih]; ring
  exact h a.data

/-- The write log distributes over event concatenation. -/
lemma writesOf_append (l1 l2 : List Ev) :
    writesOf (l1 ++ l2) = writesOf l1 ++ writesOf l2 := by
  induction l1 with
  | nil => rfl
  | cons e es ih => cases e <;> simp [writesOf, ih]

/-- The write log of a pure sequence of writes is the written blocks. -/
lemma writesOf_writes (l : List (List Nat)) :
    writesOf (l.map Ev.write) = l := by
  induction l with
  | nil => rfl
  | cons e es ih => simp [writesOf, ih]

/-- A clean supervised run: the first attempt streams every frame, writes the
sentinel bytes, exits, and the worker process exit closes the subprocess
stdin. -/
lemma retryRun_clean (cfg : Config) (wo : Nat → Bool) (fs : List NArr)
    (extra : List ChanItem) (w fuel : Nat)
    (hs : cfg.stdinSome = true)
    (hfs : ∀ a ∈ fs, array_equal a CLOSE_REQUEST = false)
    (hw : ∀ i, w ≤ i → wo i = true) :
    retryRun cfg wo (fuel + 1)
        ((fs.map fun a => .item (some a)) ++ .item (some CLOSE_REQUEST) :: extra) w =
      ⟨.launch :: (fs.map fun a => .write a.tobytes) ++
          [.write CLOSE_REQUEST.tobytes, .closeStdin],
        .exited, extra, w + fs.length + 1, 1⟩ := by
  simp [retryRun, updateAttempt, updateLoop_clean cfg wo fs extra none w hs hfs hw]

/-- Every supervised attempt begins by launching a fresh subprocess. -/
lemma retryRun_head (cfg : Config) (wo : Nat → Bool) (fuel : Nat)
    (q : List ChanItem) (w : Nat) :
    ((retryRun cfg wo (fuel + 1) q w).events).head? = some .launch := by
  rcases ho : (updateLoop cfg wo q none w).outcome with _ | _ | _ <;>
    simp [retryRun, updateAttempt, ho]

/-- A supervised run that reaches normal exit ends with the stdin-closing
EOF of the worker process exit. -/
lemma retryRun_exited_last (cfg : Config) (wo : Nat → Bool) :
    ∀ (fuel : Nat) (q : List ChanItem) (w : Nat),
      (retryRun cfg wo fuel q w).outcome = .exited →
      ((retryRun cfg wo fuel q w).events).getLast? = some .closeStdin := by
  intro fuel
  induction fuel with
  | zero => intro q w h; simp [retryRun] at h
  | succ n ih =>
      intro q w h
      rcases ho : (updateLoop cfg wo q none w).outcome with _ | _ | _
      · simp only [retryRun, updateAttempt, ho]
        rw [List.getLast?_concat]
      · simp only [retryRun, updateAttempt, ho] at h ⊢
        have hlast := ih _ _ h
        have hne : (retryRun cfg wo n (updateLoop cfg wo q none w).rest
            (updateLoop cfg wo q none w).wIdx).events ≠ [] := by
          intro hnil
          rw [hnil] at hlast
          simp at hlast
        rw [List.getLast?_append_of_ne_nil _ hne]
        exact hlast
      · simp [retryRun, updateAttempt, ho] at h

/-- Every sleep performed by the loop lasts exactly the configured `wait`
duration: there is no other sleep and no growing delay in the loop. -/
lemma updateLoop_sleep (cfg : Config) (wo : Nat → Bool) :
    ∀ (q : List ChanItem) (lastF : Option NArr) (w d : Nat),
      Ev.sleep d ∈ (updateLoop cfg wo q lastF w).events → d = cfg.wait := by
  intro q
  induction q with
  | nil => intro lastF w d h; simp [updateLoop] at h
  | cons x rest ih =>
      intro lastF w d h
      match x with
      | .recvErr => simp [updateLoop] at h
      | .item none =>
          by_cases hs : cfg.stdinSome
          · rw [updateLoop_none_stdin cfg wo rest lastF w hs] at h
            simpa using h
          · rw [updateLoop_none_nostdin cfg wo rest lastF w
              (Bool.not_eq_true _ ▸ hs)] at h
            exact ih none w d h
      | .item (some a) =>
          by_cases hs : cfg.stdinSome
          · by_cases hw : wo w
            · by_cases ha : array_equal a CLOSE_REQUEST
              · rw [updateLoop_sentinelval_ok cfg wo a rest lastF w hs hw ha] at h
                simp at h
              · rw [updateLoop_write_ok cfg wo a rest lastF w hs hw
                  (Bool.not_eq_true _ ▸ ha)] at h
                simp only [List.mem_cons] at h
                rcases h with h | h
                · simp at h
                · exact ih (some a) (w + 1) d h
            · rw [updateLoop_write_fail cfg wo a rest lastF w hs
                (Bool.not_eq_true _ ▸ hw)] at h
              simpa using h
          · by_cases ha : array_equal a CLOSE_REQUEST
            · rw [updateLoop_nostdin_exit cfg wo a rest lastF w
                (Bool.not_eq_true _ ▸ hs) ha] at h
              simp at h
            · rw [updateLoop_nostdin_cont cfg wo a rest lastF w
                (Bool.not_eq_true _ ▸ hs) (Bool.not_eq_true _ ▸ ha)] at h
              exact ih (some a) w d h

/-- Every sleep performed anywhere in the supervised execution lasts exactly
`wait`: the retry supervisor adds no delay of its own and there is no
backoff growth across attempts. -/
lemma retryRun_sleep (cfg : Config) (wo : Nat → Bool) :
    ∀ (fuel : Nat) (q : List ChanItem) (w d : Nat),
      Ev.sleep d ∈ (retryRun cfg wo fuel q w).events → d = cfg.wait := by
  intro fuel
  induction fuel with
  | zero => intro q w d h; simp [retryRun] at h
  | succ n ih =>
      intro q w d h
      rcases ho : (updateLoop cfg wo q none w).outcome with _ | _ | _ <;>
        simp only [retryRun, updateAttempt, ho, List.cons_append, List.mem_cons,
          List.mem_append, List.mem_singleton] at h
      · rcases h with h | h | h
        · simp at h
        · exact updateLoop_sleep cfg wo q none w d h
        · simp at h
      · rcases h with h | h | h
        · simp at h
        · exact updateLoop_sleep cfg wo q none w d h
        · exact ih _ _ d h
      · rcases h with h | h
        · simp at h
        · exact updateLoop_sleep cfg wo q none w d h

/-- The starting count is a lower bound of the peak count. -/
lemma le_maxAlive (n : Nat) : ∀ l : List Ev, n ≤ maxAlive n l
  | [] => le_rfl
  | _ :: _ => le_max_left _ _

/-- Peak alive count over a concatenation. -/
lemma maxAlive_append (l1 : List Ev) : ∀ (l2 : List Ev) (n : Nat),
    maxAlive n (l1 ++ l2) = max (maxAlive n l1) (maxAlive (aliveAfter n l1) l2) := by
  induction l1 with
  | nil =>
      intro l2 n
      simp only [List.nil_append, maxAlive, aliveAfter, List.foldl_nil]
      exact (max_eq_right (le_maxAlive n l2)).symm
  | cons e es ih =>
      intro l2 n
      simp only [List.cons_append, List.append_eq, maxAlive, aliveAfter,
        List.foldl_cons] at *
      rw [ih, max_assoc]

/-- During one run of the loop, starting with one live subprocess: the alive
count never exceeds one, it is zero after a raised exit (the failing-write
branch terminates the subprocess before re-raising) and one otherwise, and
the unread channel rest contains no receive error if the input contained
none.  Hypothesis: the channel input holds no receive error — a receive
error raises out of the loop without any terminate. -/
lemma updateLoop_alive (cfg : Config) (wo : Nat → Bool) :
    ∀ (q : List ChanItem) (lastF : Option NArr) (w : Nat),
      ChanItem.recvErr ∉ q →
      maxAlive 1 (updateLoop cfg wo q lastF w).events ≤ 1 ∧
      aliveAfter 1 (updateLoop cfg wo q lastF w).events =
        (if (updateLoop cfg wo q lastF w).outcome = .raised then 0 else 1) ∧
      ChanItem.recvErr ∉ (updateLoop cfg wo q lastF w).rest := by
  intro q
  induction q with
  | nil =>
      intro lastF w _
      simp [updateLoop, maxAlive, aliveAfter]
  | cons x rest ih =>
      intro lastF w hq
      have hq1 : ChanItem.recvErr ∉ rest := fun hc => hq (List.mem_cons_of_mem _ hc)
      match x with
      | .recvErr => exact absurd (List.mem_cons_self _ _) hq
      | .item none =>
          by_cases hs : cfg.stdinSome
          · rw [updateLoop_none_stdin cfg wo rest lastF w hs]
            refine ⟨?_, ?_, hq1⟩ <;> simp [maxAlive, aliveAfter, aliveStep]
          · rw [updateLoop_none_nostdin cfg wo rest lastF w (Bool.not_eq_true _ ▸ hs)]
            exact ih none w hq1
      | .item (some a) =>
          by_cases hs : cfg.stdinSome
          · by_cases hw : wo w
            · by_cases ha : array_equal a CLOSE_REQUEST
              · rw [updateLoop_sentinelval_ok cfg wo a rest lastF w hs hw ha]
                refine ⟨?_, ?_, hq1⟩ <;> simp [maxAlive, aliveAfter, aliveStep]
              · rw [updateLoop_write_ok cfg wo a rest lastF w hs hw
                  (Bool.not_eq_true _ ▸ ha)]
                obtain ⟨h1, h2, h3⟩ := ih (some a) (w + 1) hq1
                refine ⟨?_, ?_, h3⟩
                · simpa [maxAlive, aliveStep] using h1
                · simpa [aliveAfter, aliveStep] using h2
            · rw [updateLoop_write_fail cfg wo a rest lastF w hs
                (Bool.not_eq_true _ ▸ hw)]
              refine ⟨?_, ?_, hq1⟩ <;> simp [maxAlive, aliveAfter, aliveStep]
          · by_cases ha : array_equal a CLOSE_REQUEST
            · rw [updateLoop_nostdin_exit cfg wo a rest lastF w
                (Bool.not_eq_true _ ▸ hs) ha]
              refine ⟨?_, ?_, hq1⟩ <;> simp [maxAlive, aliveAfter]
            · rw [updateLoop_nostdin_cont cfg wo a rest lastF w
                (Bool.not_eq_true _ ▸ hs) (Bool.not_eq_true _ ▸ ha)]
              exact ih (some a) w hq1

/-- Across the whole supervised execution, if no channel-receive failure
occurs, at most one encoder subprocess is alive at any point. -/
lemma retryRun_alive (cfg : Config) (wo : Nat → Bool) :
    ∀ (fuel : Nat) (q : List ChanItem) (w : Nat),
      ChanItem.recvErr ∉ q →
      maxAlive 0 (retryRun cfg wo fuel q w).events ≤ 1 := by
  intro fuel
  induction fuel with
  | zero => intro q w _; simp [retryRun, maxAlive]
  | succ n ih =>
      intro q w hq
      obtain ⟨h1, h2, h3⟩ := updateLoop_alive cfg wo q none w hq
      rcases ho : (updateLoop cfg wo q none w).outcome with _ | _ | _ <;>
        simp only [retryRun, updateAttempt, ho]
      · have h2e : aliveAfter 1 (updateLoop cfg wo q none w).events = 1 := by
          rw [h2, ho]; simp
        have hcs : maxAlive 1 [Ev.closeStdin] = 1 := by simp [maxAlive, aliveStep]
        rw [show (Ev.launch :: (updateLoop cfg wo q none w).events) ++ [Ev.closeStdin] =
              Ev.launch :: ((updateLoop cfg wo q none w).events ++ [Ev.closeStdin]) from rfl]
        simp only [maxAlive, aliveStep, maxAlive_append, Nat.zero_add, h2e, hcs]
        omega
      · have h2r : aliveAfter 1 (updateLoop cfg wo q none w).events = 0 := by
          rw [h2, ho]; simp
        have hr := ih (updateLoop cfg wo q none w).rest (updateLoop cfg wo q none w).wIdx h3
        rw [show (Ev.launch :: (updateLoop cfg wo q none w).events) ++
              (retryRun cfg wo n (updateLoop cfg wo q none w).rest
                (updateLoop cfg wo q none w).wIdx).events =
              Ev.launch :: ((updateLoop cfg wo q none w).events ++
                (retryRun cfg wo n (updateLoop cfg wo q none w).rest
                  (updateLoop cfg wo q none w).wIdx).events) from rfl]
        simp only [maxAlive, aliveStep, maxAlive_append, Nat.zero_add, h2r]
        omega
      · simp only [maxAlive, aliveStep, Nat.zero_add]
        omega

/-- Any output of a successful `cv2.resize` has a 2- or 3-dimensional shape,
so it is never `array_equal` to the shape-`[1]` sentinel. -/
lemma resized_not_sentinel (f out : NArr) (res : Nat × Nat)
    (h : resize f res = some out) : array_equal out CLOSE_REQUEST = false := by
  unfold resize at h
  split at h
  · simp only [Option.some.injEq] at h
    subst h
    have hne : ([res.2, res.1] : List Nat) ≠ [1] := by simp
    have hb : (([res.2, res.1] : List Nat) == [1]) = false :=
      beq_eq_false_iff_ne.mpr hne
    simp [array_equal, CLOSE_REQUEST, hb]
  · simp only [Option.some.injEq] at h
    subst h
    rename_i h0 w0 c hsh
    have hne : ([res.2, res.1, c] : List Nat) ≠ [1] := by simp
    have hb : (([res.2, res.1, c] : List Nat) == [1]) = false :=
      beq_eq_false_iff_ne.mpr hne
    simp [array_equal, CLOSE_REQUEST, hb]
  · exact absurd h (by simp)

/-- Inversion of a `Stream.endCall` that returned: the handle was open, the
returned run is the complete supervised worker execution over the channel
contents with the sentinel enqueued last, it exited normally, and the
post-join connection keeps the unread items and stays open. -/
lemma endCall_returned (cfg : Config) (wo : Nat → Bool) (fuel : Nat)
    (c c2 : Connection) (run : RunRes)
    (h : Stream.endCall cfg wo fuel c = .returned c2 run) :
    c.closed = false ∧
    run = retryRun cfg wo fuel (c.queue ++ [.item (some CLOSE_REQUEST)]) 0 ∧
    run.outcome = .exited ∧ c2 = ⟨run.rest, false⟩ := by
  unfold Stream.endCall Connection.send at h
  by_cases hc : c.closed
  · simp [hc] at h
  · simp only [Bool.not_eq_true] at hc
    simp only [hc, Bool.false_eq_true, if_false] at h
    split at h
    · rename_i hout
      simp only [EndResult.returned.injEq] at h
      obtain ⟨h1, h2⟩ := h
      subst h2
      exact ⟨hc, rfl, hout, h1.symm⟩
    · exact absurd h (by simp)

/-- Shape, dtype and size of a resized §8 scenario frame. -/
lemma rframe_eq (k : Nat) :
    ∃ d : List Nat, rframe k = ⟨[480, 640, 3], 1, d⟩ ∧ d.length = 480 * 640 * 3 := by
  refine ⟨_, rfl, ?_⟩
  simp

/-- A resized scenario frame never matches the sentinel. -/
lemma rframe_not_sentinel (k : Nat) : array_equal (rframe k) CLOSE_REQUEST = false :=
  resized_not_sentinel (testFrame k) (rframe k) (640, 480) rfl

/-- A resized 640x480 BGR frame serializes to exactly `640*480*3` bytes. -/
lemma rframe_bytes_len (k : Nat) : (rframe k).tobytes.length = 640 * 480 * 3 := by
  obtain ⟨d, he, hl⟩ := rframe_eq k
  rw [he, tobytes_length]
  simpa using hl

lemma writesOf_launch (es : List Ev) : writesOf (.launch :: es) = writesOf es := rfl

lemma writesOf_write (bs : List Nat) (es : List Ev) :
    writesOf (.write bs :: es) = bs :: writesOf es := rfl

/-- The §8 scenario worker run, in closed form: one attempt, the ten frames
written in order, then the sentinel bytes, then normal exit. -/
lemma scenario_run_eq :
    scenarioRun =
      ⟨.launch :: ((List.range 10).map fun k => .write (rframe k).tobytes) ++
          [.write CLOSE_REQUEST.tobytes, .closeStdin], .exited, [], 11, 1⟩ := by
  have hq : scenarioQueue ++ [.item (some CLOSE_REQUEST)] =
      (((List.range 10).map rframe).map fun a => .item (some a)) ++
        .item (some CLOSE_REQUEST) :: [] := by
    simp [scenarioQueue, List.map_map]
  have hfs : ∀ a ∈ (List.range 10).map rframe, array_equal a CLOSE_REQUEST = false := by
    intro a ha
    simp only [List.mem_map] at ha
    obtain ⟨k, _, rfl⟩ := ha
    exact rframe_not_sentinel k
  have h := retryRun_clean scenarioCfg (fun _ => true) ((List.range 10).map rframe)
    [] 0 0 rfl hfs (fun i _ => rfl)
  unfold scenarioRun
  rw [hq, h]
  simp [List.map_map]

/-- The byte blocks the §8 scenario subprocess stdin receives: the ten
frames, in order, then the sentinel serialization. -/
lemma scenario_writes :
    writesOf scenarioRun.events =
      ((List.range 10).map fun k => (rframe k).tobytes) ++ [CLOSE_REQUEST.tobytes] := by
  rw [scenario_run_eq]
  show writesOf (.launch :: (((List.range 10).map fun k => .write (rframe k).tobytes) ++
    [.write CLOSE_REQUEST.tobytes, .closeStdin])) = _
  rw [writesOf_launch, writesOf_append]
  have h1 : (List.range 10).map (fun k => Ev.write (rframe k).tobytes) =
      ((List.range 10).map fun k => (rframe k).tobytes).map Ev.write := by
    rw [List.map_map]
    rfl
  rw [h1, writesOf_writes]
  rfl

/-- The §8 scenario `end()` call returns, with the channel drained and the
handle still open. -/
lemma scenarioEnd_eq : scenarioEnd = .returned ⟨[], false⟩ scenarioRun := by
  have hs : scenarioEnd = Stream.endCall scenarioCfg (fun _ => true) 1 ⟨scenarioQueue, false⟩ := rfl
  rw [hs]
  unfold Stream.endCall Connection.send
  simp only [Bool.false_eq_true, if_false]
  have hrun : retryRun scenarioCfg (fun _ => true) 1
      (scenarioQueue ++ [.item (some CLOSE_REQUEST)]) 0 = scenarioRun := rfl
  rw [hrun, scenario_run_eq]

/-- One supervised step when the attempt raises: the events of the failed
attempt are followed by the events of the re-invocation on the remaining
channel contents. -/
lemma retryRun_raised_step (cfg : Config) (wo : Nat → Bool) (fuel : Nat)
    (q : List ChanItem) (w : Nat)
    (h : (updateLoop cfg wo q none w).outcome = .raised) :
    retryRun cfg wo (fuel + 1) q w =
      ⟨(.launch :: (updateLoop cfg wo q none w).events) ++
          (retryRun cfg wo fuel (updateLoop cfg wo q none w).rest
            (updateLoop cfg wo q none w).wIdx).events,
        (retryRun cfg wo fuel (updateLoop cfg wo q none w).rest
          (updateLoop cfg wo q none w).wIdx).outcome,
        (retryRun cfg wo fuel (updateLoop cfg wo q none w).rest
          (updateLoop cfg wo q none w).wIdx).rest,
        (retryRun cfg wo fuel (updateLoop cfg wo q none w).rest
          (updateLoop cfg wo q none w).wIdx).wIdx,
        (retryRun cfg wo fuel (updateLoop cfg wo q none w).rest
          (updateLoop cfg wo q none w).wIdx).attempts + 1⟩ := by
  simp only [retryRun, updateAttempt, h]

/-- A run of `n` receive failures followed by the sentinel: each failure
consumes one attempt (launch, raise, immediate retry), the (n+1)-th attempt
writes the sentinel bytes and exits — exactly `n + 1` attempts, with no cap
at any `n`. -/
lemma retryRun_recvErrs (cfg : Config) (hs : cfg.stdinSome = true) :
    ∀ (n w : Nat),
      retryRun cfg (fun _ => true) (n + 1)
          (List.replicate n .recvErr ++ [.item (some CLOSE_REQUEST)]) w =
        ⟨List.replicate n .launch ++ [.launch, .write CLOSE_REQUEST.tobytes, .closeStdin],
          .exited, [], w + 1, n + 1⟩ := by
  intro n
  induction n with
  | zero =>
      intro w
      simp [retryRun, updateAttempt,
        updateLoop_sentinel_ok cfg (fun _ => true) [] none w hs rfl]
  | succ m ih =>
      intro w
      have hloop : updateLoop cfg (fun _ => true)
          (.recvErr :: (List.replicate m .recvErr ++ [.item (some CLOSE_REQUEST)]))
          none w =
          ⟨[], .raised, List.replicate m .recvErr ++ [.item (some CLOSE_REQUEST)], w⟩ := by
        simp [updateLoop]
      have hstep := retryRun_raised_step cfg (fun _ => true) (m + 1)
        (.recvErr :: (List.replicate m .recvErr ++ [.item (some CLOSE_REQUEST)])) w
        (by rw [hloop])
      rw [hloop] at hstep
      dsimp only at hstep
      rw [show List.replicate (m + 1) ChanItem.recvErr ++ [ChanItem.item (some CLOSE_REQUEST)] =
          .recvErr :: (List.replicate m .recvErr ++ [.item (some CLOSE_REQUEST)]) by
        simp [List.replicate_succ]]
      rw [show m + 1 + 1 = m + 1 + 1 from rfl, hstep, ih w]
      simp [List.replicate_succ]

/-- Serialized lengths of a list of resized scenario frames: every block is
`640*480*3` bytes. -/
lemma rframe_bytes_len_map (l : List Nat) :
    ((l.map fun k => (rframe k).tobytes).map List.length) =
      List.replicate l.length (640 * 480 * 3) := by
  induction l with
  | nil => rfl
  | cons x xs ih => simp [ih, rframe_bytes_len x, List.replicate_succ]

/-! The claims. -/

/-- C1: the claim says a `None` received after a frame makes the worker
re-write the retained previous frame.  On the code, `last_frame = frame` runs
before the `None` test, so the substitution leaves `frame = None`,
`frame.tobytes()` raises, and the error branch runs: on the channel input
`[frame, None]` the only write is the first frame's, after which the worker
logs, terminates the subprocess, sleeps and re-raises — the retained frame is
never re-written. -/
theorem C1_none_crashes_worker :
    updateAttempt smallCfg (fun _ => true) [.item (some (sframe 0)), .item none] 0 =
      ⟨[.launch, .write (sframe 0).tobytes, .logError "rtsp://localhost:8554/cam",
        .terminate, .sleep 5], .raised, [], 1⟩ ∧
    writesOf (updateAttempt smallCfg (fun _ => true)
        [.item (some (sframe 0)), .item none] 0).events = [(sframe 0).tobytes] := by
  decide

/-- C2 counterexample: the claim says the worker loop exits on the sentinel
regardless of subprocess health.  When the write of the sentinel bytes
raises, the attempt raises instead of exiting, and the automatic retry — the
sentinel having been consumed — leaves the worker blocked on `recv`
forever. -/
theorem C2_counterexample :
    (updateAttempt smallCfg (fun _ => false) [.item (some CLOSE_REQUEST)] 0).outcome =
      .raised ∧
    (retryRun smallCfg (fun _ => false) 2 [.item (some CLOSE_REQUEST)] 0).outcome =
      .blocked := by
  decide

/-- C2 amended: receiving the sentinel exits the loop provided the write of
its bytes succeeds or there is no stdin handle to write to; a failing write
instead re-raises before the sentinel test is reached. -/
theorem C2_sentinel_exit_amended (cfg : Config) (wo : Nat → Bool)
    (rest : List ChanItem) (lastF : Option NArr) (w : Nat)
    (h : wo w = true ∨ cfg.stdinSome = false) :
    (updateLoop cfg wo (.item (some CLOSE_REQUEST) :: rest) lastF w).outcome =
      .exited := by
  rcases h with h | h
  · by_cases hs : cfg.stdinSome
    · rw [updateLoop_sentinel_ok cfg wo rest lastF w hs h]
    · rw [updateLoop_nostdin_exit cfg wo CLOSE_REQUEST rest lastF w
        (Bool.not_eq_true _ ▸ hs) rfl]
  · rw [updateLoop_nostdin_exit cfg wo CLOSE_REQUEST rest lastF w h rfl]

/-- Witness for C2 amended at a concrete input. -/
theorem C2_sentinel_exit_amended_witness :
    (updateLoop smallCfg (fun _ => true)
        [.item (some CLOSE_REQUEST)] none 0).outcome = .exited :=
  C2_sentinel_exit_amended smallCfg (fun _ => true) [] none 0 (Or.inl rfl)

/-- C3 counterexample: the claim says the §8 scenario subprocess receives
exactly the ten frames' bytes and nothing else.  On the code the write of
the received item precedes the sentinel test, so the subprocess additionally
receives the 8-byte serialization of `CLOSE_REQUEST` after the ten frames:
the write log is not the ten frame blocks, and its block lengths are ten
times `640*480*3` followed by an extra 8. -/
theorem C3_counterexample :
    writesOf scenarioRun.events ≠ ((List.range 10).map fun k => (rframe k).tobytes) ∧
    (writesOf scenarioRun.events).map List.length =
      List.replicate 10 (640 * 480 * 3) ++ [8] := by
  have hw := scenario_writes
  have hlen : ((List.range 10).map fun k => (rframe k).tobytes).map List.length =
      List.replicate 10 (640 * 480 * 3) := by
    rw [rframe_bytes_len_map]
    simp
  constructor
  · rw [hw]
    intro hcontra
    have hc := congrArg List.length hcontra
    simp at hc
  · rw [hw, List.map_append, hlen]
    rfl

/-- C3 amended: in the §8 scenario the subprocess receives the ten frames'
bytes in the order sent (each `640*480*3` bytes), followed by the 8-byte
serialization of the close sentinel; then the worker exits normally and
`end()` returns with the channel drained and the handle open. -/
theorem C3_scenario_amended :
    scenarioEnd = .returned ⟨[], false⟩ scenarioRun ∧
    writesOf scenarioRun.events =
      ((List.range 10).map fun k => (rframe k).tobytes) ++ [CLOSE_REQUEST.tobytes] ∧
    ((List.range 10).map fun k => (rframe k).tobytes).map List.length =
      List.replicate 10 (640 * 480 * 3) ∧
    CLOSE_REQUEST.tobytes.length = 8 ∧
    scenarioRun.outcome = .exited := by
  refine ⟨scenarioEnd_eq, scenario_writes, ?_, rfl, by rw [scenario_run_eq]⟩
  rw [rframe_bytes_len_map]
  simp

/-- C4: on a failing stdin write the worker performs, in order, the error
log with the stream URL, the subprocess terminate, the sleep of the
configured `wait`, and the re-raise; the retry supervisor then re-runs the
entry point, whose first action is launching a fresh subprocess. -/
theorem C4_write_failure_recovery (cfg : Config) (wo : Nat → Bool) (a : NArr)
    (rest : List ChanItem) (lastF : Option NArr) (w fuel : Nat)
    (hs : cfg.stdinSome = true) (hw : wo w = false) :
    updateLoop cfg wo (.item (some a) :: rest) lastF w =
      ⟨[.logError cfg.url, .terminate, .sleep cfg.wait], .raised, rest, w + 1⟩ ∧
    (retryRun cfg wo (fuel + 2) (.item (some a) :: rest) w).events =
      [.launch, .logError cfg.url, .terminate, .sleep cfg.wait] ++
        (retryRun cfg wo (fuel + 1) rest (w + 1)).events ∧
    ((retryRun cfg wo (fuel + 1) rest (w + 1)).events).head? = some .launch := by
  refine ⟨updateLoop_write_fail cfg wo a rest lastF w hs hw, ?_,
    retryRun_head cfg wo fuel rest (w + 1)⟩
  have h2 := updateLoop_write_fail cfg wo a rest none w hs hw
  show (retryRun cfg wo (fuel + 1 + 1) (.item (some a) :: rest) w).events = _
  simp [retryRun, updateAttempt, h2]

/-- Witness for C4 at a concrete input. -/
theorem C4_write_failure_recovery_witness :
    updateLoop smallCfg failFirstWrite (.item (some (sframe 0)) :: []) none 0 =
      ⟨[.logError smallCfg.url, .terminate, .sleep smallCfg.wait], .raised, [], 0 + 1⟩ ∧
    (retryRun smallCfg failFirstWrite (0 + 2) (.item (some (sframe 0)) :: []) 0).events =
      [.launch, .logError smallCfg.url, .terminate, .sleep smallCfg.wait] ++
        (retryRun smallCfg failFirstWrite (0 + 1) [] (0 + 1)).events ∧
    ((retryRun smallCfg failFirstWrite (0 + 1) [] (0 + 1)).events).head? =
      some .launch :=
  C4_write_failure_recovery smallCfg failFirstWrite (sframe 0) [] none 0 0 rfl rfl

/-- C5 counterexample: the claim says the in-flight frame and every frame
sent during the recovery wait are dropped and never delivered.  In the run
where the write of `sframe 1` fails while `sframe 2` and the sentinel are
enqueued behind it (the caller sent them during the failure handling), the
restarted attempt delivers `sframe 2` to the fresh subprocess: only the
in-flight frame is dropped, the queued frames are replayed from the
channel. -/
theorem C5_counterexample :
    retryRun smallCfg failFirstWrite 2
        [.item (some (sframe 1)), .item (some (sframe 2)), .item (some CLOSE_REQUEST)] 0 =
      ⟨[.launch, .logError "rtsp://localhost:8554/cam", .terminate, .sleep 5, .launch,
        .write (sframe 2).tobytes, .write CLOSE_REQUEST.tobytes, .closeStdin],
        .exited, [], 3, 2⟩ ∧
    Ev.write (sframe 2).tobytes ∈
      (retryRun smallCfg failFirstWrite 2
        [.item (some (sframe 1)), .item (some (sframe 2)),
          .item (some CLOSE_REQUEST)] 0).events ∧
    Ev.write (sframe 1).tobytes ∉
      (retryRun smallCfg failFirstWrite 2
        [.item (some (sframe 1)), .item (some (sframe 2)),
          .item (some CLOSE_REQUEST)] 0).events := by
  decide

/-- C5 amended: when the first write fails, the in-flight frame is dropped —
the complete event trace holds no write of it — while every frame still in
the channel (including frames sent during the wait window) is delivered to
the fresh subprocess of the next attempt, followed by the sentinel bytes. -/
theorem C5_drop_inflight_amended (cfg : Config) (wo : Nat → Bool) (f : NArr)
    (fs : List NArr) (fuel : Nat)
    (hs : cfg.stdinSome = true) (hw0 : wo 0 = false)
    (hw : ∀ i, 1 ≤ i → wo i = true)
    (hfs : ∀ a ∈ fs, array_equal a CLOSE_REQUEST = false) :
    retryRun cfg wo (fuel + 2)
        (.item (some f) ::
          ((fs.map fun a => .item (some a)) ++ [.item (some CLOSE_REQUEST)])) 0 =
      ⟨[.launch, .logError cfg.url, .terminate, .sleep cfg.wait, .launch] ++
          ((fs.map fun a => .write a.tobytes) ++
            [.write CLOSE_REQUEST.tobytes, .closeStdin]),
        .exited, [], fs.length + 2, 2⟩ := by
  have h1 := updateLoop_write_fail cfg wo f
    ((fs.map fun a => .item (some a)) ++ [.item (some CLOSE_REQUEST)]) none 0 hs hw0
  have h2 := retryRun_clean cfg wo fs [] 1 fuel hs hfs hw
  have hstep := retryRun_raised_step cfg wo (fuel + 1)
    (.item (some f) :: ((fs.map fun a => .item (some a)) ++ [.item (some CLOSE_REQUEST)]))
    0 (by rw [h1])
  rw [h1] at hstep
  dsimp only at hstep
  show retryRun cfg wo (fuel + 1 + 1) _ 0 = _
  rw [hstep, h2]
  simp
  omega

/-- C6 counterexample: the claim says the sentinel is never treated as a
valid frame in any code path.  On the code, a received sentinel first goes
through the frame-write path — its 8 bytes are written to the subprocess
stdin — and is only then detected by the `array_equal` test. -/
theorem C6_counterexample :
    writesOf (retryRun smallCfg (fun _ => true) 1
        [.item (some CLOSE_REQUEST)] 0).events = [CLOSE_REQUEST.tobytes] ∧
    CLOSE_REQUEST.tobytes.length = 8 := by
  decide

/-- C6 amended: the sentinel test itself is unambiguous — a frame produced
by `Stream.send` (a successful resize) is never `array_equal` to the
shape-`[1]` sentinel, and the sentinel always matches itself — but the
worker writes the sentinel's bytes to the subprocess stdin before the test
runs. -/
theorem C6_sentinel_distinguishable_amended (cfg : Config) (f out : NArr)
    (res : Nat × Nat) (hs : cfg.stdinSome = true)
    (h : resize f res = some out) :
    array_equal out CLOSE_REQUEST = false ∧
    array_equal CLOSE_REQUEST CLOSE_REQUEST = true ∧
    (updateLoop cfg (fun _ => true) [.item (some CLOSE_REQUEST)] none 0).events =
      [.write CLOSE_REQUEST.tobytes] := by
  refine ⟨resized_not_sentinel f out res h, rfl, ?_⟩
  rw [updateLoop_sentinel_ok cfg (fun _ => true) [] none 0 hs rfl]

/-- Witness for C6 amended at a concrete input. -/
theorem C6_sentinel_distinguishable_amended_witness :
    array_equal (sframe 0) CLOSE_REQUEST = false ∧
    array_equal CLOSE_REQUEST CLOSE_REQUEST = true ∧
    (updateLoop smallCfg (fun _ => true) [.item (some CLOSE_REQUEST)] none 0).events =
      [.write CLOSE_REQUEST.tobytes] :=
  C6_sentinel_distinguishable_amended smallCfg (srcFrame 0) (sframe 0) (2, 2) rfl rfl

/-- Witness for C5 amended at a concrete input. -/
theorem C5_drop_inflight_amended_witness :
    retryRun smallCfg failFirstWrite (0 + 2)
        (.item (some (sframe 1)) ::
          (([sframe 2].map fun a => .item (some a)) ++ [.item (some CLOSE_REQUEST)])) 0 =
      ⟨[.launch, .logError smallCfg.url, .terminate, .sleep smallCfg.wait, .launch] ++
          (([sframe 2].map fun a => .write a.tobytes) ++
            [.write CLOSE_REQUEST.tobytes, .closeStdin]),
        .exited, [], [sframe 2].length + 2, 2⟩ :=
  C5_drop_inflight_amended smallCfg failFirstWrite (sframe 1) [sframe 2] 0 rfl rfl
    (fun i hi => by simp [failFirstWrite]; omega)
    (by decide)

/-- C7: when `end()` returns, the sentinel had been enqueued behind every
previously sent frame, the supervised worker run over those contents has
fully terminated with a normal exit, its final event is the stdin-closing
EOF delivered to the subprocess by the worker process exit, and the
post-join handle keeps the unread items with its write end still open. -/
theorem C7_end_joins_and_signals (cfg : Config) (wo : Nat → Bool) (fuel : Nat)
    (c c2 : Connection) (run : RunRes)
    (h : Stream.endCall cfg wo fuel c = .returned c2 run) :
    run = retryRun cfg wo fuel (c.queue ++ [.item (some CLOSE_REQUEST)]) 0 ∧
    run.outcome = .exited ∧
    run.events.getLast? = some .closeStdin ∧
    c2 = ⟨run.rest, false⟩ := by
  obtain ⟨hc, hrun, hout, hc2⟩ := endCall_returned cfg wo fuel c c2 run h
  refine ⟨hrun, hout, ?_, hc2⟩
  rw [hrun]
  exact retryRun_exited_last cfg wo fuel _ 0 (hrun ▸ hout)

/-- Witness for C7 at a concrete input. -/
theorem C7_end_joins_and_signals_witness :
    smallRun = retryRun smallCfg (fun _ => true) 1
        ((Connection.mk [] false).queue ++ [.item (some CLOSE_REQUEST)]) 0 ∧
    smallRun.outcome = .exited ∧
    smallRun.events.getLast? = some .closeStdin ∧
    (Connection.mk [] false) = ⟨smallRun.rest, false⟩ :=
  C7_end_joins_and_signals smallCfg (fun _ => true) 1 ⟨[], false⟩ ⟨[], false⟩
    smallRun (by decide)

/-- C8 counterexample: the claim says at most one subprocess launched by the
worker is alive at any point, including across channel-receive failures.  A
raising `recv` propagates without `pipe.terminate()`, so the retried attempt
launches a second subprocess while the first is still alive: the peak alive
count of this run is two. -/
theorem C8_counterexample :
    maxAlive 0 (retryRun smallCfg (fun _ => true) 2
        [.recvErr, .item (some (sframe 5)), .item (some CLOSE_REQUEST)] 0).events = 2 ∧
    (retryRun smallCfg (fun _ => true) 2
        [.recvErr, .item (some (sframe 5)), .item (some CLOSE_REQUEST)] 0).outcome =
      .exited := by
  decide

/-- C8 amended: provided no channel-receive failure occurs, at most one
encoder subprocess is alive at any point of the supervised execution — the
failing-write path terminates the subprocess before the retry relaunches. -/
theorem C8_single_subprocess_amended (cfg : Config) (wo : Nat → Bool)
    (fuel : Nat) (q : List ChanItem) (w : Nat)
    (hq : ChanItem.recvErr ∉ q) :
    maxAlive 0 (retryRun cfg wo fuel q w).events ≤ 1 :=
  retryRun_alive cfg wo fuel q w hq

/-- Witness for C8 amended at a concrete input: a run with a write failure
and a restart. -/
theorem C8_single_subprocess_amended_witness :
    maxAlive 0 (retryRun smallCfg failFirstWrite 2
        [.item (some (sframe 0)), .item (some CLOSE_REQUEST)] 0).events ≤ 1 :=
  C8_single_subprocess_amended smallCfg failFirstWrite 2
    [.item (some (sframe 0)), .item (some CLOSE_REQUEST)] 0 (by decide)

/-- C9: the retry policy is unbounded and constant-delay: after any number
`n` of raising attempts the worker entry point is invoked an (n+1)-th time
(no retry ceiling — here, `n` receive failures followed by the sentinel
yield exactly `n+1` attempts and a normal exit), and every sleep anywhere in
any supervised execution lasts exactly the configured `wait` (no backoff
growth; the supervisor itself adds no delay). -/
theorem C9_unbounded_retry (cfg : Config) (n : Nat) (hs : cfg.stdinSome = true) :
    (retryRun cfg (fun _ => true) (n + 1)
        (List.replicate n .recvErr ++ [.item (some CLOSE_REQUEST)]) 0).attempts = n + 1 ∧
    (retryRun cfg (fun _ => true) (n + 1)
        (List.replicate n .recvErr ++ [.item (some CLOSE_REQUEST)]) 0).outcome = .exited ∧
    ∀ (wo : Nat → Bool) (fuel : Nat) (q : List ChanItem) (w d : Nat),
      Ev.sleep d ∈ (retryRun cfg wo fuel q w).events → d = cfg.wait := by
  refine ⟨?_, ?_, fun wo fuel q w d => retryRun_sleep cfg wo fuel q w d⟩ <;>
    rw [retryRun_recvErrs cfg hs n 0]

/-- Witness for C9 at a concrete input. -/
theorem C9_unbounded_retry_witness :
    (retryRun smallCfg (fun _ => true) (2 + 1)
        (List.replicate 2 .recvErr ++ [.item (some CLOSE_REQUEST)]) 0).attempts = 2 + 1 ∧
    (retryRun smallCfg (fun _ => true) (2 + 1)
        (List.replicate 2 .recvErr ++ [.item (some CLOSE_REQUEST)]) 0).outcome = .exited ∧
    ∀ (wo : Nat → Bool) (fuel : Nat) (q : List ChanItem) (w d : Nat),
      Ev.sleep d ∈ (retryRun smallCfg wo fuel q w).events → d = smallCfg.wait :=
  C9_unbounded_retry smallCfg 2 rfl

/-- C10: after `end()` has returned, the handle's write end is still open
(`end` never closes it), so a later `send` raises no channel-closed error:
it resizes the frame and enqueues it behind the items the terminated worker
left unread — and the worker run has already exited, so nothing consumes
the newly enqueued frame. -/
theorem C10_send_after_end (cfg : Config) (wo : Nat → Bool) (fuel : Nat)
    (c c2 : Connection) (run : RunRes) (f rf : NArr)
    (hend : Stream.endCall cfg wo fuel c = .returned c2 run)
    (hrf : resize f cfg.resolution = some rf) :
    c2.closed = false ∧
    Stream.send cfg c2 f = .ok ⟨c2.queue ++ [.item (some rf)], false⟩ ∧
    run.outcome = .exited ∧
    c2.queue = run.rest := by
  obtain ⟨hc, hrun, hout, hc2⟩ := endCall_returned cfg wo fuel c c2 run hend
  subst hc2
  refine ⟨rfl, ?_, hout, rfl⟩
  simp [Stream.send, hrf, Connection.send]

/-- Witness for C10 at a concrete input. -/
theorem C10_send_after_end_witness :
    (Connection.mk [] false).closed = false ∧
    Stream.send smallCfg ⟨[], false⟩ (srcFrame 3) =
      .ok ⟨(Connection.mk [] false).queue ++ [.item (some (sframe 3))], false⟩ ∧
    smallRun.outcome = .exited ∧
    (Connection.mk [] false).queue = smallRun.rest :=
  C10_send_after_end smallCfg (fun _ => true) 1 ⟨[], false⟩ ⟨[], false⟩ smallRun
    (srcFrame 3) (sframe 3) (by decide) rfl

end Zephyr
